import Mathlib

/-
Verification of the UMA2 client layer (src/uma2/uma2.rs,
src/uma2/keycloak/grant_permission_to_user.rs) as a shallow embedding.

Each orchestrator is split in two phases, mirroring the source:
  * a request phase (everything up to `.send()`): precondition checks
    against the provider state, URL construction, request-body encoding;
    it returns `Except ClientError HttpRequest`, where an error means the
    call failed before any network activity;
  * a response phase (everything after the awaited JSON body): the
    two-step classification (probe the body for the OAuth2 error shape,
    otherwise decode the operation's success type).
The full orchestrator, given the transport's JSON response, composes the
two phases.
-/

namespace OpenidUma2

/-- JSON values: the embedding of serde_json Value. Objects keep their
fields as an ordered association list, as serialization order matters. -/
inductive Json where
  | null : Json
  | bool (b : Bool) : Json
  | num (n : Int) : Json
  | str (s : String) : Json
  | arr (elems : List Json) : Json
  | obj (fields : List (String × Json)) : Json

/-- Field lookup in a JSON object (first occurrence), none on non-objects. -/
def Json.lookupKey : Json → String → Option Json
  | Json.obj fields, key => fields.lookup key
  | _, _ => none

/-- Embedding of url::Url: what the client layer observes of a URL is
whether it is hierarchical (cannot-be-a-base URLs reject path-segment
mutation), its path segments and its query pairs. -/
structure Url where
  cannotBeABase : Bool
  pathSegments : List String
  query : List (String × String)
deriving Repr, DecidableEq

/-- Embedding of url::Url::path_segments_mut().extend: fails exactly when
the URL cannot be a base, otherwise appends the given segments. -/
def Url.extendSegments (u : Url) (segs : List String) : Option Url :=
  if u.cannotBeABase then none
  else some { u with pathSegments := u.pathSegments ++ segs }

/-- Embedding of url::Url::query_pairs_mut().append_pair: appends one
key/value pair to the existing query. -/
def Url.appendQueryPair (u : Url) (key value : String) : Url :=
  { u with query := u.query ++ [(key, value)] }

/-- Modelled from the spec: the standard OAuth2 error shape
(`error: string`, `error_description: optional string`); the declaring
module (crate::OAuth2Error) is not among the provided sources. -/
structure OAuth2Error where
  error : String
  error_description : Option String
deriving Repr, DecidableEq

/-- The UMA2 protocol error kinds. The declaring module
(src/uma2/error.rs) is not among the provided sources; the variants are
the ones the provided sources construct, which coincide with the spec's
taxonomy of precondition and configuration errors. -/
inductive Uma2Error where
  | NoUma2Discovered : Uma2Error
  | NoPermissionsEndpoint : Uma2Error
  | PermissionEndpointMalformed : Uma2Error
  | NoPolicyAssociationEndpoint : Uma2Error
  | PolicyAssociationEndpointMalformed : Uma2Error
  | AudienceFieldRequired : Uma2Error
deriving Repr, DecidableEq

/-- Modelled from the spec: the client error union (crate::error::ClientError
is not among the provided sources). `Uma2` wraps the protocol-level kinds,
`UpstreamOAuth2Error` is the classifier's error branch
(ClientError::from(OAuth2Error)), `DecodeFailure` is the serde failure
propagated by `?` on the success decode, `TransportFailure` the wrapped
network failure (never produced after a body was received). -/
inductive ClientError where
  | Uma2 (e : Uma2Error) : ClientError
  | UpstreamOAuth2Error (e : OAuth2Error) : ClientError
  | DecodeFailure : ClientError
  | TransportFailure : ClientError
deriving Repr, DecidableEq

/-- The provider state every orchestrator consults: embedding of the
Provider + Uma2Provider trait surface used by the sources
(uma2_discovered, permission_uri, uma_policy_uri, token_uri). -/
structure Uma2Provider where
  uma2_discovered : Bool
  permission_uri : Option Url
  uma_policy_uri : Option Url
  token_uri : Url
deriving Repr, DecidableEq

/-- Modelled from the spec: the two claim-token formats named in the
source documentation of obtain_requesting_party_token; the declaring
module (src/uma2/claim_token_format.rs) is not among the provided
sources. -/
inductive Uma2ClaimTokenFormat where
  | OAuthJwt : Uma2ClaimTokenFormat
  | OidcIdToken : Uma2ClaimTokenFormat
deriving Repr, DecidableEq

/-- Modelled from the spec: the wire string of a claim-token format
(the source calls to_string() on it). -/
def Uma2ClaimTokenFormat.toWire : Uma2ClaimTokenFormat → String
  | Uma2ClaimTokenFormat.OAuthJwt => "urn:ietf:params:oauth:token-type:jwt"
  | Uma2ClaimTokenFormat.OidcIdToken =>
      "https://openid.net/specs/openid-connect-core-1_0.html#IDToken"

/-- Permission logic enum, per the spec data model (declaring module
src/uma2/permission_association.rs is not among the provided sources). -/
inductive Uma2PermissionLogic where
  | Positive : Uma2PermissionLogic
  | Negative : Uma2PermissionLogic
deriving Repr, DecidableEq

/-- Decision strategy enum, per the spec data model (declaring module
src/uma2/permission_association.rs is not among the provided sources). -/
inductive Uma2PermissionDecisionStrategy where
  | Unanimous : Uma2PermissionDecisionStrategy
  | Affirmative : Uma2PermissionDecisionStrategy
  | Consensus : Uma2PermissionDecisionStrategy
deriving Repr, DecidableEq

/-- Modelled from the spec: wire string of the logic enum. -/
def Uma2PermissionLogic.toWire : Uma2PermissionLogic → String
  | Uma2PermissionLogic.Positive => "POSITIVE"
  | Uma2PermissionLogic.Negative => "NEGATIVE"

/-- Modelled from the spec: wire string of the decision strategy enum. -/
def Uma2PermissionDecisionStrategy.toWire : Uma2PermissionDecisionStrategy → String
  | Uma2PermissionDecisionStrategy.Unanimous => "UNANIMOUS"
  | Uma2PermissionDecisionStrategy.Affirmative => "AFFIRMATIVE"
  | Uma2PermissionDecisionStrategy.Consensus => "CONSENSUS"

/-- The RPT exchange authentication method (src/uma2/uma2.rs). -/
inductive Uma2AuthenticationMethod where
  | Bearer : Uma2AuthenticationMethod
  | Basic : Uma2AuthenticationMethod
deriving Repr, DecidableEq

/-- Modelled from the spec: the opaque bearer credential decoded from the
RPT exchange response (crate::Bearer is not among the provided sources);
the only field the source reads is access_token. -/
structure Bearer where
  access_token : String
deriving Repr, DecidableEq

/-- A request body: absent, form-encoded pairs, or a JSON document. -/
inductive RequestBody where
  | empty : RequestBody
  | form (pairs : List (String × String)) : RequestBody
  | json (value : Json) : RequestBody

/-- The request an orchestrator hands to the transport. -/
structure HttpRequest where
  method : String
  url : Url
  headers : List (String × String)
  body : RequestBody

/-- Modelled from the spec: the structural probe
serde_json::from_value::<OAuth2Error>. It succeeds exactly when the body
is an object whose "error" field is a string; "error_description" may be
missing or null (optional field), and must be a string when present. -/
def parseOAuth2Error : Json → Option OAuth2Error
  | Json.obj fields =>
    match fields.lookup "error" with
    | some (Json.str e) =>
      match fields.lookup "error_description" with
      | none => some { error := e, error_description := none }
      | some Json.null => some { error := e, error_description := none }
      | some (Json.str d) => some { error := e, error_description := some d }
      | some _ => none
    | _ => none
  | _ => none

/-- The uniform response classification every orchestrator applies after
the transport returns a JSON body: probe for the OAuth2 error shape, and
only when the probe fails run the operation's success decode. -/
def classifyResponse {α : Type} (decode : Json → Except ClientError α)
    (json : Json) : Except ClientError α :=
  match parseOAuth2Error json with
  | some e => Except.error (ClientError.UpstreamOAuth2Error e)
  | none => decode json

/-- Modelled from the spec: serde_json::from_value::<Bearer>, requiring
an access_token string field. -/
def decodeBearer : Json → Option Bearer
  | Json.obj fields =>
    match fields.lookup "access_token" with
    | some (Json.str t) => some { access_token := t }
    | _ => none
  | _ => none

/-- Hex digit for the JSON control-character escape. -/
def hexDigit (n : Nat) : Char :=
  if n < 10 then Char.ofNat (48 + n) else Char.ofNat (87 + n)

/-- JSON string escaping as serde_json Display performs it. -/
def escapeJsonChar (c : Char) : String :=
  if c = '"' then "\\\""
  else if c = '\\' then "\\\\"
  else if c = '\x08' then "\\b"
  else if c = '\x0c' then "\\f"
  else if c = '\n' then "\\n"
  else if c = '\r' then "\\r"
  else if c = '\t' then "\\t"
  else if c.toNat < 32 then
    "\\u00" ++ String.mk [hexDigit (c.toNat / 16), hexDigit (c.toNat % 16)]
  else String.singleton c

/-- Escape a whole string for JSON output. -/
def escapeJsonString (s : String) : String :=
  s.data.foldl (fun acc c => acc ++ escapeJsonChar c) ""

mutual

/-- Compact rendering of a JSON value, the embedding of
format!("{:}", json) on a serde_json Value. -/
def jsonDisplay : Json → String
  | Json.null => "null"
  | Json.bool b => if b then "true" else "false"
  | Json.num n => toString n
  | Json.str s => "\"" ++ escapeJsonString s ++ "\""
  | Json.arr elems => "[" ++ jsonDisplayList elems ++ "]"
  | Json.obj fields => "\x7b" ++ jsonDisplayFields fields ++ "\x7d"

/-- Comma-separated rendering of array elements. -/
def jsonDisplayList : List Json → String
  | [] => ""
  | [x] => jsonDisplay x
  | x :: y :: xs => jsonDisplay x ++ "," ++ jsonDisplayList (y :: xs)

/-- Comma-separated rendering of object fields. -/
def jsonDisplayFields : List (String × Json) → String
  | [] => ""
  | [(k, v)] => "\"" ++ escapeJsonString k ++ "\":" ++ jsonDisplay v
  | (k, v) :: y :: xs =>
      "\"" ++ escapeJsonString k ++ "\":" ++ jsonDisplay v ++ "," ++
        jsonDisplayFields (y :: xs)

end

/-- Boolean wire encoding: both the explicit branch the source uses for
response_include_resource_name and Display for bool, as used for
submit_request, yield these literals. -/
def boolWire (b : Bool) : String := if b then "true" else "false"

/-- Append a form pair when the optional value is present, mirroring the
source pattern `if x.is_some() \x7b body.append_pair(key, x.unwrap()) \x7d`. -/
def appendOptPair (body : List (String × String)) (key : String) :
    Option String → List (String × String)
  | some v => body ++ [(key, v)]
  | none => body

/-- The pairs a single optional parameter contributes: used to state the
normal form of the encoded bodies. -/
def optPair (key : String) : Option String → List (String × String)
  | some v => [(key, v)]
  | none => []

/-- The form-encoded body of the RPT exchange, built exactly as the
source builds it: the grant_type pair first, then each optional
parameter appended only when present, the permission sequence appended
once per element. -/
def rptFormBody (ticket claim_token : Option String)
    (claim_token_format : Option Uma2ClaimTokenFormat)
    (rpt : Option String) (permission : Option (List String))
    (audience : Option String)
    (response_include_resource_name : Option Bool)
    (response_permissions_limit : Option Nat)
    (submit_request : Option Bool) : List (String × String) :=
  let body : List (String × String) :=
    [("grant_type", "urn:ietf:params:oauth:grant-type:uma-ticket")]
  let body := appendOptPair body "ticket" ticket
  let body := appendOptPair body "claim_token" claim_token
  let body := appendOptPair body "claim_token_format"
    (claim_token_format.map Uma2ClaimTokenFormat.toWire)
  let body := appendOptPair body "rpt" rpt
  let body :=
    match permission with
    | some ps => body ++ ps.map (fun perm => ("permission", perm))
    | none => body
  let body := appendOptPair body "audience" audience
  let body := appendOptPair body "response_include_resource_name"
    (response_include_resource_name.map boolWire)
  let body := appendOptPair body "response_permissions_limit"
    (response_permissions_limit.map toString)
  let body := appendOptPair body "submit_request"
    (submit_request.map boolWire)
  body

/-- The audience precondition of the RPT exchange, mirroring the source
check: only a present-and-empty permission sequence with an absent
audience trips it. -/
def rptAudienceGuard (permission : Option (List String))
    (audience : Option String) : Bool :=
  match permission with
  | some p => p.isEmpty && audience.isNone
  | none => false

/-- The Authorization header value of the RPT exchange. -/
def rptAuthHeader (auth_method : Uma2AuthenticationMethod)
    (token : String) : String :=
  match auth_method with
  | Uma2AuthenticationMethod.Basic => "Basic " ++ token
  | Uma2AuthenticationMethod.Bearer => "Bearer " ++ token

/-- Request phase of obtain_requesting_party_token
(src/uma2/uma2.rs): discovery check, audience precondition, form body,
POST to the token endpoint. -/
def obtain_requesting_party_token_request (provider : Uma2Provider)
    (token : String) (auth_method : Uma2AuthenticationMethod)
    (ticket claim_token : Option String)
    (claim_token_format : Option Uma2ClaimTokenFormat)
    (rpt : Option String) (permission : Option (List String))
    (audience : Option String)
    (response_include_resource_name : Option Bool)
    (response_permissions_limit : Option Nat)
    (submit_request : Option Bool) : Except ClientError HttpRequest :=
  if !provider.uma2_discovered then
    Except.error (ClientError.Uma2 Uma2Error.NoUma2Discovered)
  else if rptAudienceGuard permission audience then
    Except.error (ClientError.Uma2 Uma2Error.AudienceFieldRequired)
  else
    Except.ok
      { method := "POST"
        url := provider.token_uri
        headers :=
          [("Content-Type", "application/x-www-form-urlencoded"),
           ("Authorization", rptAuthHeader auth_method token)]
        body := RequestBody.form
          (rptFormBody ticket claim_token claim_token_format rpt permission
            audience response_include_resource_name
            response_permissions_limit submit_request) }

/-- Success decode of the RPT exchange: the Bearer record's access
token; a serde failure becomes the distinct decode failure. -/
def rptDecodeSuccess (json : Json) : Except ClientError String :=
  match decodeBearer json with
  | some b => Except.ok b.access_token
  | none => Except.error ClientError.DecodeFailure

/-- Response phase of obtain_requesting_party_token. -/
def obtain_requesting_party_token_response (json : Json) :
    Except ClientError String :=
  classifyResponse rptDecodeSuccess json

/-- Composition of a request phase with a response phase, given the JSON
body the transport returned: a request-phase error is returned before
any network activity. -/
def runOperation {α : Type} (request : Except ClientError HttpRequest)
    (respond : Json → Except ClientError α) (response : Json) :
    Except ClientError α :=
  match request with
  | Except.error e => Except.error e
  | Except.ok _ => respond response

/-- The full RPT exchange, given the transport's JSON response. -/
def obtain_requesting_party_token (provider : Uma2Provider)
    (token : String) (auth_method : Uma2AuthenticationMethod)
    (ticket claim_token : Option String)
    (claim_token_format : Option Uma2ClaimTokenFormat)
    (rpt : Option String) (permission : Option (List String))
    (audience : Option String)
    (response_include_resource_name : Option Bool)
    (response_permissions_limit : Option Nat)
    (submit_request : Option Bool) (response : Json) :
    Except ClientError String :=
  runOperation
    (obtain_requesting_party_token_request provider token auth_method
      ticket claim_token claim_token_format rpt permission audience
      response_include_resource_name response_permissions_limit
      submit_request)
    obtain_requesting_party_token_response response

/-- The permission ticket record built by create_uma2_permission_ticket.
The declaring module (src/uma2/permission_ticket.rs) is not among the
provided sources; the fields are the ones the construction site in
src/uma2/uma2.rs populates, with the generic claims payload embedded as
an already-serialized JSON value. -/
structure Uma2PermissionTicket where
  resource_id : String
  resource_scopes : Option (List String)
  claims : Option Json

/-- A JSON object field contributed by an optional record field: absent
fields contribute no key. -/
def optField (key : String) : Option Json → List (String × Json)
  | some v => [(key, v)]
  | none => []

/-- Modelled from the spec: serialization of the permission ticket
(src/uma2/permission_ticket.rs is not among the provided sources); the
spec's end-to-end scenario fixes the wire shape: camelCase keys
resourceId and resourceScopes, unset optional fields omitted entirely. -/
def Uma2PermissionTicket.toJson (t : Uma2PermissionTicket) : Json :=
  Json.obj ([("resourceId", Json.str t.resource_id)]
    ++ optField "resourceScopes"
        (t.resource_scopes.map (fun ss => Json.arr (ss.map Json.str)))
    ++ optField "claims" t.claims)

/-- Request phase of create_uma2_permission_ticket (src/uma2/uma2.rs):
discovery check, permission-endpoint presence check, JSON body, POST to
the permission endpoint with no extra path segment. -/
def create_uma2_permission_ticket_request (provider : Uma2Provider)
    (pat_token resource_id : String)
    (resource_scopes : Option (List String)) (claims : Option Json) :
    Except ClientError HttpRequest :=
  if !provider.uma2_discovered then
    Except.error (ClientError.Uma2 Uma2Error.NoUma2Discovered)
  else
    match provider.permission_uri with
    | none => Except.error (ClientError.Uma2 Uma2Error.NoPermissionsEndpoint)
    | some url =>
      let ticket : Uma2PermissionTicket :=
        { resource_id := resource_id
          resource_scopes := resource_scopes
          claims := claims }
      Except.ok
        { method := "POST"
          url := url
          headers :=
            [("Content-Type", "application/json"),
             ("Authorization", "Bearer " ++ pat_token)]
          body := RequestBody.json ticket.toJson }

/-- Success decode shared by the unit-result orchestrators (ticket
creation, associate, update, delete): success is the absence of an
error shape, no second decode is attempted. -/
def unitDecodeSuccess (_json : Json) : Except ClientError Unit :=
  Except.ok ()

/-- Response phase of create_uma2_permission_ticket. -/
def create_uma2_permission_ticket_response (json : Json) :
    Except ClientError Unit :=
  classifyResponse unitDecodeSuccess json

/-- The full ticket creation, given the transport's JSON response. -/
def create_uma2_permission_ticket (provider : Uma2Provider)
    (pat_token resource_id : String)
    (resource_scopes : Option (List String)) (claims : Option Json)
    (response : Json) : Except ClientError Unit :=
  runOperation
    (create_uma2_permission_ticket_request provider pat_token resource_id
      resource_scopes claims)
    create_uma2_permission_ticket_response response

/-- The permission association record. The declaring module
(src/uma2/permission_association.rs) is not among the provided sources;
the fields and their types are the ones the construction sites in
src/uma2/uma2.rs populate, which coincide with the spec data model. -/
structure Uma2PermissionAssociation where
  id : Option String
  name : String
  description : String
  scopes : List String
  roles : Option (List String)
  groups : Option (List String)
  clients : Option (List String)
  owner : Option String
  permission_type : Option String
  logic : Option Uma2PermissionLogic
  decision_strategy : Option Uma2PermissionDecisionStrategy
deriving Repr, DecidableEq

/-- Modelled from the spec: serialization of a permission association
(src/uma2/permission_association.rs is not among the provided sources);
per the spec's JSON-body rule, unset optional fields are omitted from
the object entirely. -/
def Uma2PermissionAssociation.toJson (p : Uma2PermissionAssociation) :
    Json :=
  Json.obj (optField "id" (p.id.map Json.str)
    ++ [("name", Json.str p.name),
        ("description", Json.str p.description),
        ("scopes", Json.arr (p.scopes.map Json.str))]
    ++ optField "roles" (p.roles.map (fun xs => Json.arr (xs.map Json.str)))
    ++ optField "groups" (p.groups.map (fun xs => Json.arr (xs.map Json.str)))
    ++ optField "clients" (p.clients.map (fun xs => Json.arr (xs.map Json.str)))
    ++ optField "owner" (p.owner.map Json.str)
    ++ optField "type" (p.permission_type.map Json.str)
    ++ optField "logic" (p.logic.map (fun l => Json.str l.toWire))
    ++ optField "decisionStrategy"
        (p.decision_strategy.map (fun d => Json.str d.toWire)))

/-- Request phase of associate_uma2_resource_with_a_permission
(src/uma2/uma2.rs): discovery check, policy-endpoint presence check,
resource id appended as a path segment, payload with id and
permission_type left unset, POST. -/
def associate_uma2_resource_with_a_permission_request
    (provider : Uma2Provider) (token resource_id name description : String)
    (scopes : List String) (roles groups clients : Option (List String))
    (owner : Option String) (logic : Option Uma2PermissionLogic)
    (decision_strategy : Option Uma2PermissionDecisionStrategy) :
    Except ClientError HttpRequest :=
  if !provider.uma2_discovered then
    Except.error (ClientError.Uma2 Uma2Error.NoUma2Discovered)
  else
    match provider.uma_policy_uri with
    | none =>
        Except.error (ClientError.Uma2 Uma2Error.NoPolicyAssociationEndpoint)
    | some url0 =>
      match url0.extendSegments [resource_id] with
      | none =>
          Except.error
            (ClientError.Uma2 Uma2Error.PolicyAssociationEndpointMalformed)
      | some url =>
        let permission : Uma2PermissionAssociation :=
          { id := none
            name := name
            description := description
            scopes := scopes
            roles := roles
            groups := groups
            clients := clients
            owner := owner
            permission_type := none
            logic := logic
            decision_strategy := decision_strategy }
        Except.ok
          { method := "POST"
            url := url
            headers :=
              [("Content-Type", "application/json"),
               ("Authorization", "Bearer " ++ token)]
            body := RequestBody.json permission.toJson }

/-- Response phase of associate_uma2_resource_with_a_permission. -/
def associate_uma2_resource_with_a_permission_response (json : Json) :
    Except ClientError Unit :=
  classifyResponse unitDecodeSuccess json

/-- The full create-association operation, given the transport's JSON
response. -/
def associate_uma2_resource_with_a_permission (provider : Uma2Provider)
    (token resource_id name description : String) (scopes : List String)
    (roles groups clients : Option (List String)) (owner : Option String)
    (logic : Option Uma2PermissionLogic)
    (decision_strategy : Option Uma2PermissionDecisionStrategy)
    (response : Json) : Except ClientError Unit :=
  runOperation
    (associate_uma2_resource_with_a_permission_request provider token
      resource_id name description scopes roles groups clients owner logic
      decision_strategy)
    associate_uma2_resource_with_a_permission_response response

/-- Request phase of update_uma2_resource_permission
(src/uma2/uma2.rs): discovery check, policy-endpoint presence check,
association id appended as a path segment, payload with id set to the
caller's id and permission_type set to "uma", PUT. -/
def update_uma2_resource_permission_request (provider : Uma2Provider)
    (id token name description : String) (scopes : List String)
    (roles groups clients : Option (List String)) (owner : Option String)
    (logic : Option Uma2PermissionLogic)
    (decision_strategy : Option Uma2PermissionDecisionStrategy) :
    Except ClientError HttpRequest :=
  if !provider.uma2_discovered then
    Except.error (ClientError.Uma2 Uma2Error.NoUma2Discovered)
  else
    match provider.uma_policy_uri with
    | none =>
        Except.error (ClientError.Uma2 Uma2Error.NoPolicyAssociationEndpoint)
    | some url0 =>
      match url0.extendSegments [id] with
      | none =>
          Except.error
            (ClientError.Uma2 Uma2Error.PolicyAssociationEndpointMalformed)
      | some url =>
        let permission : Uma2PermissionAssociation :=
          { id := some id
            name := name
            description := description
            scopes := scopes
            roles := roles
            groups := groups
            clients := clients
            owner := owner
            permission_type := some "uma"
            logic := logic
            decision_strategy := decision_strategy }
        Except.ok
          { method := "PUT"
            url := url
            headers :=
              [("Content-Type", "application/json"),
               ("Authorization", "Bearer " ++ token)]
            body := RequestBody.json permission.toJson }

/-- Response phase of update_uma2_resource_permission. -/
def update_uma2_resource_permission_response (json : Json) :
    Except ClientError Unit :=
  classifyResponse unitDecodeSuccess json

/-- The full update operation, given the transport's JSON response. -/
def update_uma2_resource_permission (provider : Uma2Provider)
    (id token name description : String) (scopes : List String)
    (roles groups clients : Option (List String)) (owner : Option String)
    (logic : Option Uma2PermissionLogic)
    (decision_strategy : Option Uma2PermissionDecisionStrategy)
    (response : Json) : Except ClientError Unit :=
  runOperation
    (update_uma2_resource_permission_request provider id token name
      description scopes roles groups clients owner logic decision_strategy)
    update_uma2_resource_permission_response response

/-- Request phase of delete_uma2_resource_permission
(src/uma2/uma2.rs): discovery check, policy-endpoint presence check,
permission id appended as a path segment, bodiless DELETE. -/
def delete_uma2_resource_permission_request (provider : Uma2Provider)
    (id token : String) : Except ClientError HttpRequest :=
  if !provider.uma2_discovered then
    Except.error (ClientError.Uma2 Uma2Error.NoUma2Discovered)
  else
    match provider.uma_policy_uri with
    | none =>
        Except.error (ClientError.Uma2 Uma2Error.NoPolicyAssociationEndpoint)
    | some url0 =>
      match url0.extendSegments [id] with
      | none =>
          Except.error
            (ClientError.Uma2 Uma2Error.PolicyAssociationEndpointMalformed)
      | some url =>
        Except.ok
          { method := "DELETE"
            url := url
            headers :=
              [("Content-Type", "application/json"),
               ("Authorization", "Bearer " ++ token)]
            body := RequestBody.empty }

/-- Response phase of delete_uma2_resource_permission. -/
def delete_uma2_resource_permission_response (json : Json) :
    Except ClientError Unit :=
  classifyResponse unitDecodeSuccess json

/-- The full delete operation, given the transport's JSON response. -/
def delete_uma2_resource_permission (provider : Uma2Provider)
    (id token : String) (response : Json) : Except ClientError Unit :=
  runOperation
    (delete_uma2_resource_permission_request provider id token)
    delete_uma2_resource_permission_response response

/-- Decode a JSON array of strings. -/
def decodeStringList : Json → Option (List String)
  | Json.arr elems =>
      elems.mapM (fun j =>
        match j with
        | Json.str s => some s
        | _ => none)
  | _ => none

/-- Decode an optional string field of an object: a missing or null
field is an unset option, a string is a set option, anything else is a
decode failure. -/
def decodeOptStringField (fields : List (String × Json)) (key : String) :
    Option (Option String) :=
  match fields.lookup key with
  | none => some none
  | some Json.null => some none
  | some (Json.str s) => some (some s)
  | some _ => none

/-- Decode an optional string-list field of an object. -/
def decodeOptStringListField (fields : List (String × Json))
    (key : String) : Option (Option (List String)) :=
  match fields.lookup key with
  | none => some none
  | some Json.null => some none
  | some j =>
    match decodeStringList j with
    | some xs => some (some xs)
    | none => none

/-- Modelled from the spec: deserialization of the logic enum. -/
def decodeLogic (fields : List (String × Json)) :
    Option (Option Uma2PermissionLogic) :=
  match fields.lookup "logic" with
  | none => some none
  | some Json.null => some none
  | some (Json.str s) =>
    if s = "POSITIVE" then some (some Uma2PermissionLogic.Positive)
    else if s = "NEGATIVE" then some (some Uma2PermissionLogic.Negative)
    else none
  | some _ => none

/-- Modelled from the spec: deserialization of the decision strategy. -/
def decodeDecisionStrategy (fields : List (String × Json)) :
    Option (Option Uma2PermissionDecisionStrategy) :=
  match fields.lookup "decisionStrategy" with
  | none => some none
  | some Json.null => some none
  | some (Json.str s) =>
    if s = "UNANIMOUS" then
      some (some Uma2PermissionDecisionStrategy.Unanimous)
    else if s = "AFFIRMATIVE" then
      some (some Uma2PermissionDecisionStrategy.Affirmative)
    else if s = "CONSENSUS" then
      some (some Uma2PermissionDecisionStrategy.Consensus)
    else none
  | some _ => none

/-- Modelled from the spec: deserialization of one permission
association record (src/uma2/permission_association.rs is not among the
provided sources); name, description and scopes are required, all other
fields optional, mirroring the spec data model. -/
def decodeUma2PermissionAssociation : Json →
    Option Uma2PermissionAssociation
  | Json.obj fields => do
    let id ← decodeOptStringField fields "id"
    let name ←
      match fields.lookup "name" with
      | some (Json.str s) => some s
      | _ => none
    let description ←
      match fields.lookup "description" with
      | some (Json.str s) => some s
      | _ => none
    let scopes ←
      match fields.lookup "scopes" with
      | some j => decodeStringList j
      | none => none
    let roles ← decodeOptStringListField fields "roles"
    let groups ← decodeOptStringListField fields "groups"
    let clients ← decodeOptStringListField fields "clients"
    let owner ← decodeOptStringField fields "owner"
    let permission_type ← decodeOptStringField fields "type"
    let logic ← decodeLogic fields
    let decision_strategy ← decodeDecisionStrategy fields
    pure
      { id := id
        name := name
        description := description
        scopes := scopes
        roles := roles
        groups := groups
        clients := clients
        owner := owner
        permission_type := permission_type
        logic := logic
        decision_strategy := decision_strategy }
  | _ => none

/-- Modelled from the spec: serde_json::from_value on a vector of
permission associations, the search operation's success decode. -/
def decodeUma2PermissionAssociationList : Json →
    Option (List Uma2PermissionAssociation)
  | Json.arr elems => elems.mapM decodeUma2PermissionAssociation
  | _ => none

/-- Request phase of search_for_uma2_resource_permission
(src/uma2/uma2.rs): discovery check, policy-endpoint presence check,
each query parameter appended only when the caller supplied it, in the
fixed source order; the caller's offset is emitted under the key
"first" and the caller's count under the key "max"; bodiless GET. -/
def search_for_uma2_resource_permission_request (provider : Uma2Provider)
    (token : String) (resource name scope : Option String)
    (offset count : Option Nat) : Except ClientError HttpRequest :=
  if !provider.uma2_discovered then
    Except.error (ClientError.Uma2 Uma2Error.NoUma2Discovered)
  else
    match provider.uma_policy_uri with
    | none =>
        Except.error (ClientError.Uma2 Uma2Error.NoPolicyAssociationEndpoint)
    | some url0 =>
      let url := url0
      let url :=
        match resource with
        | some r => url.appendQueryPair "resource" r
        | none => url
      let url :=
        match name with
        | some n => url.appendQueryPair "name" n
        | none => url
      let url :=
        match scope with
        | some s => url.appendQueryPair "scope" s
        | none => url
      let url :=
        match offset with
        | some n => url.appendQueryPair "first" (toString n)
        | none => url
      let url :=
        match count with
        | some n => url.appendQueryPair "max" (toString n)
        | none => url
      Except.ok
        { method := "GET"
          url := url
          headers :=
            [("Content-Type", "application/json"),
             ("Authorization", "Bearer " ++ token)]
          body := RequestBody.empty }

/-- Success decode of the search operation. -/
def searchDecodeSuccess (json : Json) :
    Except ClientError (List Uma2PermissionAssociation) :=
  match decodeUma2PermissionAssociationList json with
  | some xs => Except.ok xs
  | none => Except.error ClientError.DecodeFailure

/-- Response phase of search_for_uma2_resource_permission. -/
def search_for_uma2_resource_permission_response (json : Json) :
    Except ClientError (List Uma2PermissionAssociation) :=
  classifyResponse searchDecodeSuccess json

/-- The full search operation, given the transport's JSON response. -/
def search_for_uma2_resource_permission (provider : Uma2Provider)
    (token : String) (resource name scope : Option String)
    (offset count : Option Nat) (response : Json) :
    Except ClientError (List Uma2PermissionAssociation) :=
  runOperation
    (search_for_uma2_resource_permission_request provider token resource
      name scope offset count)
    search_for_uma2_resource_permission_response response

/-- The grant-to-user request record
(src/uma2/keycloak/grant_permission_to_user.rs). -/
structure Uma2GrantPermissionToUserRequest where
  resource : String
  requester : String
  granted : Bool
  scope_name : Option String
deriving Repr, DecidableEq

/-- Serialization of the grant-to-user record as the serde derive on it
performs it: fields in declaration order, scope_name renamed to
scopeName; the derive carries no skip attribute on scope_name, so an
unset scope_name is emitted as an explicit JSON null under the
scopeName key. -/
def Uma2GrantPermissionToUserRequest.toJson
    (r : Uma2GrantPermissionToUserRequest) : Json :=
  Json.obj
    [("resource", Json.str r.resource),
     ("requester", Json.str r.requester),
     ("granted", Json.bool r.granted),
     ("scopeName",
       match r.scope_name with
       | some s => Json.str s
       | none => Json.null)]

/-- Request phase of grant_permission_to_user
(src/uma2/keycloak/grant_permission_to_user.rs): discovery check,
permission-endpoint presence check, the literal segment "ticket"
appended to the permission endpoint, JSON body with granted always
true, POST with an Accept header. -/
def grant_permission_to_user_request (provider : Uma2Provider)
    (token resource_id requester : String)
    (scope_name : Option String) : Except ClientError HttpRequest :=
  if !provider.uma2_discovered then
    Except.error (ClientError.Uma2 Uma2Error.NoUma2Discovered)
  else
    match provider.permission_uri with
    | none => Except.error (ClientError.Uma2 Uma2Error.NoPermissionsEndpoint)
    | some url0 =>
      match url0.extendSegments ["ticket"] with
      | none =>
          Except.error
            (ClientError.Uma2 Uma2Error.PermissionEndpointMalformed)
      | some url =>
        let request : Uma2GrantPermissionToUserRequest :=
          { resource := resource_id
            requester := requester
            granted := true
            scope_name := scope_name }
        Except.ok
          { method := "POST"
            url := url
            headers :=
              [("Content-Type", "application/json"),
               ("Authorization", "Bearer " ++ token),
               ("Accept", "application/json")]
            body := RequestBody.json request.toJson }

/-- Response phase of grant_permission_to_user: on a non-error body the
raw JSON is rendered back to the caller as an opaque string. -/
def grant_permission_to_user_response (json : Json) :
    Except ClientError String :=
  classifyResponse (fun j => Except.ok (jsonDisplay j)) json

/-- The full grant-to-user operation, given the transport's JSON
response. -/
def grant_permission_to_user (provider : Uma2Provider)
    (token resource_id requester : String) (scope_name : Option String)
    (response : Json) : Except ClientError String :=
  runOperation
    (grant_permission_to_user_request provider token resource_id requester
      scope_name)
    grant_permission_to_user_response response

/-- Appending an optional pair is appending the pairs it contributes. -/
theorem appendOptPair_eq (body : List (String × String)) (key : String)
    (v : Option String) :
    appendOptPair body key v = body ++ optPair key v := by
  cases v <;> simp [appendOptPair, optPair]

/-- Normal form of the RPT exchange body: the grant_type pair first,
then each parameter's contribution in the fixed source order. -/
theorem rptFormBody_eq (ticket claim_token : Option String)
    (claim_token_format : Option Uma2ClaimTokenFormat)
    (rpt : Option String) (permission : Option (List String))
    (audience : Option String)
    (response_include_resource_name : Option Bool)
    (response_permissions_limit : Option Nat)
    (submit_request : Option Bool) :
    rptFormBody ticket claim_token claim_token_format rpt permission
        audience response_include_resource_name response_permissions_limit
        submit_request =
      [("grant_type", "urn:ietf:params:oauth:grant-type:uma-ticket")]
      ++ optPair "ticket" ticket
      ++ optPair "claim_token" claim_token
      ++ optPair "claim_token_format"
          (claim_token_format.map Uma2ClaimTokenFormat.toWire)
      ++ optPair "rpt" rpt
      ++ (permission.getD []).map (fun perm => ("permission", perm))
      ++ optPair "audience" audience
      ++ optPair "response_include_resource_name"
          (response_include_resource_name.map boolWire)
      ++ optPair "response_permissions_limit"
          (response_permissions_limit.map toString)
      ++ optPair "submit_request" (submit_request.map boolWire) := by
  unfold rptFormBody
  cases permission <;> simp [appendOptPair_eq, optPair, List.append_assoc]

/-- Filtering an optional pair for its own key keeps it. -/
theorem filter_optPair_self (key : String) (v : Option String) :
    (optPair key v).filter (fun kv => kv.1 == key) = optPair key v := by
  cases v <;> simp [optPair]

/-- Filtering an optional pair for a different key drops it. -/
theorem filter_optPair_ne (key other : String)
    (h : (other == key) = false) (v : Option String) :
    (optPair other v).filter (fun kv => kv.1 == key) = [] := by
  cases v <;> simp [optPair, h]

/-- Filtering the repeated permission pairs for the permission key keeps
all of them, in order. -/
theorem filter_permMap_self (ps : List String) :
    (ps.map (fun p => ("permission", p))).filter
        (fun kv : String × String => kv.1 == "permission")
      = ps.map (fun p => ("permission", p)) := by
  induction ps with
  | nil => simp
  | cons p ps ih => simp [ih]

/-- Filtering the repeated permission pairs for another key drops them. -/
theorem filter_permMap_ne (key : String)
    (h : ("permission" == key) = false) (ps : List String) :
    (ps.map (fun p => ("permission", p))).filter
        (fun kv : String × String => kv.1 == key) = [] := by
  induction ps with
  | nil => simp
  | cons p ps ih => simp [h, ih]

/-- An absent parameter contributes no pair. -/
theorem optPair_none (key : String) : optPair key none = [] := rfl

/-- A present parameter contributes its single pair. -/
theorem optPair_some (key v : String) :
    optPair key (some v) = [(key, v)] := rfl

/-- The classifier never produces a UMA2 precondition error. -/
theorem rpt_response_ne_uma2 (json : Json) (e : Uma2Error) :
    obtain_requesting_party_token_response json ≠
      Except.error (ClientError.Uma2 e) := by
  unfold obtain_requesting_party_token_response classifyResponse
    rptDecodeSuccess
  cases hp : parseOAuth2Error json
  · cases hb : decodeBearer json <;> simp
  · simp

/-- C1: for every operation, a JSON body that structurally parses as the
standard OAuth2 error shape yields the upstream-error result carrying
the error code and description, whichever operation produced it (the
classification is a function of the body alone, never of the HTTP
status); otherwise the body is decoded into the operation's success
type, and a failure of that second decode is the distinct decode
failure, not an upstream error. -/
theorem claim_C1 (json : Json) :
    (∀ e : OAuth2Error, parseOAuth2Error json = some e →
      obtain_requesting_party_token_response json =
        Except.error (ClientError.UpstreamOAuth2Error e) ∧
      create_uma2_permission_ticket_response json =
        Except.error (ClientError.UpstreamOAuth2Error e) ∧
      associate_uma2_resource_with_a_permission_response json =
        Except.error (ClientError.UpstreamOAuth2Error e) ∧
      update_uma2_resource_permission_response json =
        Except.error (ClientError.UpstreamOAuth2Error e) ∧
      delete_uma2_resource_permission_response json =
        Except.error (ClientError.UpstreamOAuth2Error e) ∧
      search_for_uma2_resource_permission_response json =
        Except.error (ClientError.UpstreamOAuth2Error e) ∧
      grant_permission_to_user_response json =
        Except.error (ClientError.UpstreamOAuth2Error e)) ∧
    (parseOAuth2Error json = none →
      (∀ b : Bearer, decodeBearer json = some b →
        obtain_requesting_party_token_response json =
          Except.ok b.access_token) ∧
      (decodeBearer json = none →
        obtain_requesting_party_token_response json =
          Except.error ClientError.DecodeFailure) ∧
      create_uma2_permission_ticket_response json = Except.ok () ∧
      associate_uma2_resource_with_a_permission_response json =
        Except.ok () ∧
      update_uma2_resource_permission_response json = Except.ok () ∧
      delete_uma2_resource_permission_response json = Except.ok () ∧
      (∀ xs, decodeUma2PermissionAssociationList json = some xs →
        search_for_uma2_resource_permission_response json =
          Except.ok xs) ∧
      (decodeUma2PermissionAssociationList json = none →
        search_for_uma2_resource_permission_response json =
          Except.error ClientError.DecodeFailure) ∧
      grant_permission_to_user_response json =
        Except.ok (jsonDisplay json)) := by
  constructor
  · intro e he
    simp [obtain_requesting_party_token_response,
      create_uma2_permission_ticket_response,
      associate_uma2_resource_with_a_permission_response,
      update_uma2_resource_permission_response,
      delete_uma2_resource_permission_response,
      search_for_uma2_resource_permission_response,
      grant_permission_to_user_response, classifyResponse, he]
  · intro hn
    refine ⟨?_, ?_, ?_, ?_, ?_, ?_, ?_, ?_, ?_⟩
    · intro b hb
      simp [obtain_requesting_party_token_response, classifyResponse, hn,
        rptDecodeSuccess, hb]
    · intro hb
      simp [obtain_requesting_party_token_response, classifyResponse, hn,
        rptDecodeSuccess, hb]
    · simp [create_uma2_permission_ticket_response, classifyResponse, hn,
        unitDecodeSuccess]
    · simp [associate_uma2_resource_with_a_permission_response,
        classifyResponse, hn, unitDecodeSuccess]
    · simp [update_uma2_resource_permission_response, classifyResponse,
        hn, unitDecodeSuccess]
    · simp [delete_uma2_resource_permission_response, classifyResponse,
        hn, unitDecodeSuccess]
    · intro xs hxs
      simp [search_for_uma2_resource_permission_response,
        classifyResponse, hn, searchDecodeSuccess, hxs]
    · intro hxs
      simp [search_for_uma2_resource_permission_response,
        classifyResponse, hn, searchDecodeSuccess, hxs]
    · simp [grant_permission_to_user_response, classifyResponse, hn]

/-- Witness for C1 at concrete bodies: the canonical error body is
classified as the upstream error, and a Bearer-shaped body decodes to
its access token. -/
theorem claim_C1_witness :
    obtain_requesting_party_token_response
        (Json.obj [("error", Json.str "invalid_grant"),
                   ("error_description", Json.str "x")]) =
      Except.error (ClientError.UpstreamOAuth2Error
        { error := "invalid_grant", error_description := some "x" }) ∧
    obtain_requesting_party_token_response
        (Json.obj [("access_token", Json.str "tok")]) =
      Except.ok "tok" :=
  ⟨((claim_C1 (Json.obj [("error", Json.str "invalid_grant"),
        ("error_description", Json.str "x")])).1
      { error := "invalid_grant", error_description := some "x" } rfl).1,
   ((claim_C1 (Json.obj [("access_token", Json.str "tok")])).2 rfl).1
     { access_token := "tok" } rfl⟩

/-- C2: with discovery done, the RPT exchange with an explicitly empty
permission sequence and no audience fails with AudienceFieldRequired
whatever the transport would have answered; with an absent or non-empty
permission sequence, the audience-required failure never occurs,
regardless of audience and of the provider state. -/
theorem claim_C2 (provider : Uma2Provider) (token : String)
    (auth_method : Uma2AuthenticationMethod)
    (ticket claim_token : Option String)
    (claim_token_format : Option Uma2ClaimTokenFormat)
    (rpt : Option String) (response_include_resource_name : Option Bool)
    (response_permissions_limit : Option Nat)
    (submit_request : Option Bool) (response : Json) :
    (provider.uma2_discovered = true →
      obtain_requesting_party_token provider token auth_method ticket
          claim_token claim_token_format rpt (some []) none
          response_include_resource_name response_permissions_limit
          submit_request response =
        Except.error (ClientError.Uma2 Uma2Error.AudienceFieldRequired)) ∧
    (∀ (permission : Option (List String)) (audience : Option String),
      (permission = none ∨ ∃ p, permission = some p ∧ p ≠ []) →
      obtain_requesting_party_token provider token auth_method ticket
          claim_token claim_token_format rpt permission audience
          response_include_resource_name response_permissions_limit
          submit_request response ≠
        Except.error (ClientError.Uma2 Uma2Error.AudienceFieldRequired)) := by
  constructor
  · intro hdisc
    simp [obtain_requesting_party_token, runOperation,
      obtain_requesting_party_token_request, rptAudienceGuard, hdisc]
  · rintro permission audience (rfl | ⟨p, rfl, hp⟩)
    · cases hd : provider.uma2_discovered
      · simp [obtain_requesting_party_token, runOperation,
          obtain_requesting_party_token_request, hd]
      · simp only [obtain_requesting_party_token, runOperation,
          obtain_requesting_party_token_request, rptAudienceGuard, hd,
          Bool.not_true, Bool.false_eq_true, if_false]
        exact rpt_response_ne_uma2 response Uma2Error.AudienceFieldRequired
    · cases hd : provider.uma2_discovered
      · simp [obtain_requesting_party_token, runOperation,
          obtain_requesting_party_token_request, hd]
      · cases p with
        | nil => exact absurd rfl hp
        | cons x xs =>
          simp only [obtain_requesting_party_token, runOperation,
            obtain_requesting_party_token_request, rptAudienceGuard, hd,
            Bool.not_true, Bool.false_eq_true, if_false,
            List.isEmpty_cons, Bool.false_and, if_false]
          exact rpt_response_ne_uma2 response Uma2Error.AudienceFieldRequired

/-- Witness for C2 at concrete inputs: the empty-permission call fails
with the audience-required error, the non-empty one does not. -/
theorem claim_C2_witness :
    obtain_requesting_party_token
        { uma2_discovered := true, permission_uri := none,
          uma_policy_uri := none,
          token_uri := { cannotBeABase := false, pathSegments := [],
                         query := [] } }
        "tok" Uma2AuthenticationMethod.Bearer none none none none
        (some []) none none none none Json.null =
      Except.error (ClientError.Uma2 Uma2Error.AudienceFieldRequired) ∧
    obtain_requesting_party_token
        { uma2_discovered := true, permission_uri := none,
          uma_policy_uri := none,
          token_uri := { cannotBeABase := false, pathSegments := [],
                         query := [] } }
        "tok" Uma2AuthenticationMethod.Bearer none none none none
        (some ["res#read"]) none none none none Json.null ≠
      Except.error (ClientError.Uma2 Uma2Error.AudienceFieldRequired) :=
  ⟨(claim_C2 _ "tok" Uma2AuthenticationMethod.Bearer none none none none
      none none none Json.null).1 rfl,
   (claim_C2 _ "tok" Uma2AuthenticationMethod.Bearer none none none none
      none none none Json.null).2 (some ["res#read"]) none
     (Or.inr ⟨["res#read"], rfl, by simp⟩)⟩

/-- C4: with discovery not performed, every orchestrator fails with
NoUma2Discovered whatever its arguments, whatever the transport would
have answered, and whatever the endpoint state — the discovery check
precedes every endpoint-presence and field check, so the discovery
error is the one reported even when the relevant endpoint URI is absent
or other preconditions also fail. -/
theorem claim_C4 (provider : Uma2Provider)
    (h : provider.uma2_discovered = false)
    (token pat_token id resource_id requester name description : String)
    (scopes : List String) (auth_method : Uma2AuthenticationMethod)
    (ticket claim_token rpt audience owner scope_name : Option String)
    (resourceQ nameQ scopeQ : Option String)
    (claim_token_format : Option Uma2ClaimTokenFormat)
    (permission : Option (List String))
    (resource_scopes roles groups clients : Option (List String))
    (response_include_resource_name submit_request : Option Bool)
    (response_permissions_limit : Option Nat) (offset count : Option Nat)
    (claims : Option Json) (logic : Option Uma2PermissionLogic)
    (decision_strategy : Option Uma2PermissionDecisionStrategy)
    (response : Json) :
    obtain_requesting_party_token provider token auth_method ticket
        claim_token claim_token_format rpt permission audience
        response_include_resource_name response_permissions_limit
        submit_request response =
      Except.error (ClientError.Uma2 Uma2Error.NoUma2Discovered) ∧
    create_uma2_permission_ticket provider pat_token resource_id
        resource_scopes claims response =
      Except.error (ClientError.Uma2 Uma2Error.NoUma2Discovered) ∧
    associate_uma2_resource_with_a_permission provider token resource_id
        name description scopes roles groups clients owner logic
        decision_strategy response =
      Except.error (ClientError.Uma2 Uma2Error.NoUma2Discovered) ∧
    update_uma2_resource_permission provider id token name description
        scopes roles groups clients owner logic decision_strategy
        response =
      Except.error (ClientError.Uma2 Uma2Error.NoUma2Discovered) ∧
    delete_uma2_resource_permission provider id token response =
      Except.error (ClientError.Uma2 Uma2Error.NoUma2Discovered) ∧
    search_for_uma2_resource_permission provider token resourceQ nameQ
        scopeQ offset count response =
      Except.error (ClientError.Uma2 Uma2Error.NoUma2Discovered) ∧
    grant_permission_to_user provider token resource_id requester
        scope_name response =
      Except.error (ClientError.Uma2 Uma2Error.NoUma2Discovered) := by
  refine ⟨?_, ?_, ?_, ?_, ?_, ?_, ?_⟩ <;>
    simp [obtain_requesting_party_token,
      obtain_requesting_party_token_request,
      create_uma2_permission_ticket, create_uma2_permission_ticket_request,
      associate_uma2_resource_with_a_permission,
      associate_uma2_resource_with_a_permission_request,
      update_uma2_resource_permission,
      update_uma2_resource_permission_request,
      delete_uma2_resource_permission,
      delete_uma2_resource_permission_request,
      search_for_uma2_resource_permission,
      search_for_uma2_resource_permission_request,
      grant_permission_to_user, grant_permission_to_user_request,
      runOperation, h]

/-- Witness for C4 on a concrete undiscovered provider whose endpoint
URIs are also absent: the discovery error is still the one reported. -/
theorem claim_C4_witness :
    delete_uma2_resource_permission
        { uma2_discovered := false, permission_uri := none,
          uma_policy_uri := none,
          token_uri := { cannotBeABase := false, pathSegments := [],
                         query := [] } }
        "perm-id" "tok" Json.null =
      Except.error (ClientError.Uma2 Uma2Error.NoUma2Discovered) :=
  (claim_C4
      { uma2_discovered := false, permission_uri := none,
        uma_policy_uri := none,
        token_uri := { cannotBeABase := false, pathSegments := [],
                       query := [] } }
      rfl "tok" "pat" "perm-id" "res" "req" "nm" "desc" []
      Uma2AuthenticationMethod.Bearer none none none none none none none
      none none none none none none none none none none none none none
      none none none Json.null).2.2.2.2.1

/-- C5: with discovery done but the operation's required optional
endpoint absent, ticket creation and grant-to-user fail with
NoPermissionsEndpoint, and the four policy operations fail with
NoPolicyAssociationEndpoint, whatever the transport would have
answered. -/
theorem claim_C5 (provider : Uma2Provider)
    (hdisc : provider.uma2_discovered = true)
    (token pat_token id resource_id requester name description : String)
    (scopes : List String)
    (owner scope_name resourceQ nameQ scopeQ : Option String)
    (resource_scopes roles groups clients : Option (List String))
    (offset count : Option Nat) (claims : Option Json)
    (logic : Option Uma2PermissionLogic)
    (decision_strategy : Option Uma2PermissionDecisionStrategy)
    (response : Json) :
    (provider.permission_uri = none →
      create_uma2_permission_ticket provider pat_token resource_id
          resource_scopes claims response =
        Except.error (ClientError.Uma2 Uma2Error.NoPermissionsEndpoint) ∧
      grant_permission_to_user provider token resource_id requester
          scope_name response =
        Except.error (ClientError.Uma2 Uma2Error.NoPermissionsEndpoint)) ∧
    (provider.uma_policy_uri = none →
      associate_uma2_resource_with_a_permission provider token resource_id
          name description scopes roles groups clients owner logic
          decision_strategy response =
        Except.error
          (ClientError.Uma2 Uma2Error.NoPolicyAssociationEndpoint) ∧
      update_uma2_resource_permission provider id token name description
          scopes roles groups clients owner logic decision_strategy
          response =
        Except.error
          (ClientError.Uma2 Uma2Error.NoPolicyAssociationEndpoint) ∧
      delete_uma2_resource_permission provider id token response =
        Except.error
          (ClientError.Uma2 Uma2Error.NoPolicyAssociationEndpoint) ∧
      search_for_uma2_resource_permission provider token resourceQ nameQ
          scopeQ offset count response =
        Except.error
          (ClientError.Uma2 Uma2Error.NoPolicyAssociationEndpoint)) := by
  constructor
  · intro hperm
    refine ⟨?_, ?_⟩ <;>
      simp [create_uma2_permission_ticket,
        create_uma2_permission_ticket_request, grant_permission_to_user,
        grant_permission_to_user_request, runOperation, hdisc, hperm]
  · intro hpol
    refine ⟨?_, ?_, ?_, ?_⟩ <;>
      simp [associate_uma2_resource_with_a_permission,
        associate_uma2_resource_with_a_permission_request,
        update_uma2_resource_permission,
        update_uma2_resource_permission_request,
        delete_uma2_resource_permission,
        delete_uma2_resource_permission_request,
        search_for_uma2_resource_permission,
        search_for_uma2_resource_permission_request, runOperation, hdisc,
        hpol]

/-- Witness for C5 on a concrete discovered provider whose endpoint
URIs are absent. -/
theorem claim_C5_witness :
    grant_permission_to_user
        { uma2_discovered := true, permission_uri := none,
          uma_policy_uri := none,
          token_uri := { cannotBeABase := false, pathSegments := [],
                         query := [] } }
        "tok" "res" "user" none Json.null =
      Except.error (ClientError.Uma2 Uma2Error.NoPermissionsEndpoint) ∧
    delete_uma2_resource_permission
        { uma2_discovered := true, permission_uri := none,
          uma_policy_uri := none,
          token_uri := { cannotBeABase := false, pathSegments := [],
                         query := [] } }
        "perm-id" "tok" Json.null =
      Except.error
        (ClientError.Uma2 Uma2Error.NoPolicyAssociationEndpoint) :=
  ⟨((claim_C5
        { uma2_discovered := true, permission_uri := none,
          uma_policy_uri := none,
          token_uri := { cannotBeABase := false, pathSegments := [],
                         query := [] } }
        rfl "tok" "pat" "perm-id" "res" "user" "nm" "desc" []
        none none none none none none none none none none none none
        none none Json.null).1 rfl).2,
   ((claim_C5
        { uma2_discovered := true, permission_uri := none,
          uma_policy_uri := none,
          token_uri := { cannotBeABase := false, pathSegments := [],
                         query := [] } }
        rfl "tok" "pat" "perm-id" "res" "user" "nm" "desc" []
        none none none none none none none none none none none none
        none none Json.null).2 rfl).2.2.1⟩

/-- C8: with discovery done and the required endpoint present but
non-hierarchical (it cannot accept additional path segments), the
operations that append a path segment fail with their endpoint-specific
malformed error whatever the transport would have answered:
grant-to-user (which appends the literal "ticket" to the permission
endpoint) with PermissionEndpointMalformed, and associate, update and
delete (which append the resource or permission id to the policy
endpoint) with PolicyAssociationEndpointMalformed. -/
theorem claim_C8 (provider : Uma2Provider) (u : Url)
    (hdisc : provider.uma2_discovered = true)
    (hbase : u.cannotBeABase = true)
    (token id resource_id requester name description : String)
    (scopes : List String) (owner scope_name : Option String)
    (roles groups clients : Option (List String))
    (logic : Option Uma2PermissionLogic)
    (decision_strategy : Option Uma2PermissionDecisionStrategy)
    (response : Json) :
    (provider.permission_uri = some u →
      grant_permission_to_user provider token resource_id requester
          scope_name response =
        Except.error
          (ClientError.Uma2 Uma2Error.PermissionEndpointMalformed)) ∧
    (provider.uma_policy_uri = some u →
      associate_uma2_resource_with_a_permission provider token resource_id
          name description scopes roles groups clients owner logic
          decision_strategy response =
        Except.error
          (ClientError.Uma2 Uma2Error.PolicyAssociationEndpointMalformed) ∧
      update_uma2_resource_permission provider id token name description
          scopes roles groups clients owner logic decision_strategy
          response =
        Except.error
          (ClientError.Uma2 Uma2Error.PolicyAssociationEndpointMalformed) ∧
      delete_uma2_resource_permission provider id token response =
        Except.error
          (ClientError.Uma2
            Uma2Error.PolicyAssociationEndpointMalformed)) := by
  constructor
  · intro hperm
    simp [grant_permission_to_user, grant_permission_to_user_request,
      runOperation, Url.extendSegments, hdisc, hperm, hbase]
  · intro hpol
    refine ⟨?_, ?_, ?_⟩ <;>
      simp [associate_uma2_resource_with_a_permission,
        associate_uma2_resource_with_a_permission_request,
        update_uma2_resource_permission,
        update_uma2_resource_permission_request,
        delete_uma2_resource_permission,
        delete_uma2_resource_permission_request, runOperation,
        Url.extendSegments, hdisc, hpol, hbase]

/-- Witness for C8 on a concrete provider whose endpoints are opaque
URLs. -/
theorem claim_C8_witness :
    grant_permission_to_user
        { uma2_discovered := true,
          permission_uri :=
            some { cannotBeABase := true, pathSegments := [], query := [] },
          uma_policy_uri :=
            some { cannotBeABase := true, pathSegments := [], query := [] },
          token_uri :=
            { cannotBeABase := false, pathSegments := [], query := [] } }
        "tok" "res" "user" none Json.null =
      Except.error
        (ClientError.Uma2 Uma2Error.PermissionEndpointMalformed) ∧
    delete_uma2_resource_permission
        { uma2_discovered := true,
          permission_uri :=
            some { cannotBeABase := true, pathSegments := [], query := [] },
          uma_policy_uri :=
            some { cannotBeABase := true, pathSegments := [], query := [] },
          token_uri :=
            { cannotBeABase := false, pathSegments := [], query := [] } }
        "perm-id" "tok" Json.null =
      Except.error
        (ClientError.Uma2 Uma2Error.PolicyAssociationEndpointMalformed) :=
  ⟨(claim_C8
      { uma2_discovered := true,
        permission_uri :=
          some { cannotBeABase := true, pathSegments := [], query := [] },
        uma_policy_uri :=
          some { cannotBeABase := true, pathSegments := [], query := [] },
        token_uri :=
          { cannotBeABase := false, pathSegments := [], query := [] } }
      { cannotBeABase := true, pathSegments := [], query := [] }
      rfl rfl "tok" "perm-id" "res" "user" "nm" "desc" [] none none none
      none none none none Json.null).1 rfl,
   ((claim_C8
      { uma2_discovered := true,
        permission_uri :=
          some { cannotBeABase := true, pathSegments := [], query := [] },
        uma_policy_uri :=
          some { cannotBeABase := true, pathSegments := [], query := [] },
        token_uri :=
          { cannotBeABase := false, pathSegments := [], query := [] } }
      { cannotBeABase := true, pathSegments := [], query := [] }
      rfl rfl "tok" "perm-id" "res" "user" "nm" "desc" [] none none none
      none none none none Json.null).2 rfl).2.2⟩

/-- C9: the association payload built by the create operation always
leaves id and permission_type unset, while the one built by the update
operation carries the caller's id and permission_type "uma"; every
other field is the caller's argument, verbatim, in both cases. -/
theorem claim_C9 (provider : Uma2Provider) (u : Url)
    (hdisc : provider.uma2_discovered = true)
    (hu : provider.uma_policy_uri = some u)
    (hbase : u.cannotBeABase = false)
    (token id resource_id name description : String)
    (scopes : List String) (roles groups clients : Option (List String))
    (owner : Option String) (logic : Option Uma2PermissionLogic)
    (decision_strategy : Option Uma2PermissionDecisionStrategy) :
    associate_uma2_resource_with_a_permission_request provider token
        resource_id name description scopes roles groups clients owner
        logic decision_strategy =
      Except.ok
        { method := "POST"
          url := { u with pathSegments := u.pathSegments ++ [resource_id] }
          headers := [("Content-Type", "application/json"),
                      ("Authorization", "Bearer " ++ token)]
          body := RequestBody.json (Uma2PermissionAssociation.toJson
            { id := none, name := name, description := description,
              scopes := scopes, roles := roles, groups := groups,
              clients := clients, owner := owner, permission_type := none,
              logic := logic,
              decision_strategy := decision_strategy }) } ∧
    update_uma2_resource_permission_request provider id token name
        description scopes roles groups clients owner logic
        decision_strategy =
      Except.ok
        { method := "PUT"
          url := { u with pathSegments := u.pathSegments ++ [id] }
          headers := [("Content-Type", "application/json"),
                      ("Authorization", "Bearer " ++ token)]
          body := RequestBody.json (Uma2PermissionAssociation.toJson
            { id := some id, name := name, description := description,
              scopes := scopes, roles := roles, groups := groups,
              clients := clients, owner := owner,
              permission_type := some "uma", logic := logic,
              decision_strategy := decision_strategy }) } := by
  constructor <;>
    simp [associate_uma2_resource_with_a_permission_request,
      update_uma2_resource_permission_request, Url.extendSegments, hdisc,
      hu, hbase]

/-- Witness for C9 on a concrete provider and arguments. -/
theorem claim_C9_witness :
    associate_uma2_resource_with_a_permission_request
        { uma2_discovered := true, permission_uri := none,
          uma_policy_uri :=
            some { cannotBeABase := false,
                   pathSegments := ["authz", "policy"], query := [] },
          token_uri :=
            { cannotBeABase := false, pathSegments := [], query := [] } }
        "tok" "res-1" "nm" "desc" ["read"] none none none none none
        none =
      Except.ok
        { method := "POST"
          url := { cannotBeABase := false,
                   pathSegments := ["authz", "policy", "res-1"],
                   query := [] }
          headers := [("Content-Type", "application/json"),
                      ("Authorization", "Bearer tok")]
          body := RequestBody.json (Uma2PermissionAssociation.toJson
            { id := none, name := "nm", description := "desc",
              scopes := ["read"], roles := none, groups := none,
              clients := none, owner := none, permission_type := none,
              logic := none, decision_strategy := none }) } :=
  (claim_C9
    { uma2_discovered := true, permission_uri := none,
      uma_policy_uri :=
        some { cannotBeABase := false,
               pathSegments := ["authz", "policy"], query := [] },
      token_uri :=
        { cannotBeABase := false, pathSegments := [], query := [] } }
    { cannotBeABase := false, pathSegments := ["authz", "policy"],
      query := [] }
    rfl rfl rfl "tok" "id" "res-1" "nm" "desc" ["read"] none none none
    none none none).1

/-- C6: in the RPT exchange form body, every optional parameter left
unset contributes no key at all; a present permission sequence of
length N contributes exactly its N permission pairs in input order (and
an absent one contributes none); and the two boolean parameters are
encoded as the literal strings "true"/"false". -/
theorem claim_C6 (ticket claim_token : Option String)
    (claim_token_format : Option Uma2ClaimTokenFormat)
    (rpt : Option String) (permission : Option (List String))
    (audience : Option String)
    (response_include_resource_name : Option Bool)
    (response_permissions_limit : Option Nat)
    (submit_request : Option Bool) :
    (ticket = none →
      (rptFormBody ticket claim_token claim_token_format rpt permission
          audience response_include_resource_name
          response_permissions_limit submit_request).filter
        (fun kv => kv.1 == "ticket") = []) ∧
    (claim_token = none →
      (rptFormBody ticket claim_token claim_token_format rpt permission
          audience response_include_resource_name
          response_permissions_limit submit_request).filter
        (fun kv => kv.1 == "claim_token") = []) ∧
    (claim_token_format = none →
      (rptFormBody ticket claim_token claim_token_format rpt permission
          audience response_include_resource_name
          response_permissions_limit submit_request).filter
        (fun kv => kv.1 == "claim_token_format") = []) ∧
    (rpt = none →
      (rptFormBody ticket claim_token claim_token_format rpt permission
          audience response_include_resource_name
          response_permissions_limit submit_request).filter
        (fun kv => kv.1 == "rpt") = []) ∧
    (audience = none →
      (rptFormBody ticket claim_token claim_token_format rpt permission
          audience response_include_resource_name
          response_permissions_limit submit_request).filter
        (fun kv => kv.1 == "audience") = []) ∧
    (response_include_resource_name = none →
      (rptFormBody ticket claim_token claim_token_format rpt permission
          audience response_include_resource_name
          response_permissions_limit submit_request).filter
        (fun kv => kv.1 == "response_include_resource_name") = []) ∧
    (response_permissions_limit = none →
      (rptFormBody ticket claim_token claim_token_format rpt permission
          audience response_include_resource_name
          response_permissions_limit submit_request).filter
        (fun kv => kv.1 == "response_permissions_limit") = []) ∧
    (submit_request = none →
      (rptFormBody ticket claim_token claim_token_format rpt permission
          audience response_include_resource_name
          response_permissions_limit submit_request).filter
        (fun kv => kv.1 == "submit_request") = []) ∧
    (permission = none →
      (rptFormBody ticket claim_token claim_token_format rpt permission
          audience response_include_resource_name
          response_permissions_limit submit_request).filter
        (fun kv => kv.1 == "permission") = []) ∧
    (∀ ps, permission = some ps →
      (rptFormBody ticket claim_token claim_token_format rpt permission
          audience response_include_resource_name
          response_permissions_limit submit_request).filter
        (fun kv => kv.1 == "permission")
        = ps.map (fun p => ("permission", p))) ∧
    (∀ b, response_include_resource_name = some b →
      (rptFormBody ticket claim_token claim_token_format rpt permission
          audience response_include_resource_name
          response_permissions_limit submit_request).filter
        (fun kv => kv.1 == "response_include_resource_name")
        = [("response_include_resource_name",
            if b then "true" else "false")]) ∧
    (∀ b, submit_request = some b →
      (rptFormBody ticket claim_token claim_token_format rpt permission
          audience response_include_resource_name
          response_permissions_limit submit_request).filter
        (fun kv => kv.1 == "submit_request")
        = [("submit_request", if b then "true" else "false")]) := by
  refine ⟨?_, ?_, ?_, ?_, ?_, ?_, ?_, ?_, ?_, ?_, ?_, ?_⟩
  · rintro rfl
    simp [rptFormBody_eq, List.filter_append, filter_optPair_self,
      filter_optPair_ne, filter_permMap_ne, optPair_none, optPair_some]
  · rintro rfl
    simp [rptFormBody_eq, List.filter_append, filter_optPair_self,
      filter_optPair_ne, filter_permMap_ne, optPair_none, optPair_some]
  · rintro rfl
    simp [rptFormBody_eq, List.filter_append, filter_optPair_self,
      filter_optPair_ne, filter_permMap_ne, optPair_none, optPair_some]
  · rintro rfl
    simp [rptFormBody_eq, List.filter_append, filter_optPair_self,
      filter_optPair_ne, filter_permMap_ne, optPair_none, optPair_some]
  · rintro rfl
    simp [rptFormBody_eq, List.filter_append, filter_optPair_self,
      filter_optPair_ne, filter_permMap_ne, optPair_none, optPair_some]
  · rintro rfl
    simp [rptFormBody_eq, List.filter_append, filter_optPair_self,
      filter_optPair_ne, filter_permMap_ne, optPair_none, optPair_some]
  · rintro rfl
    simp [rptFormBody_eq, List.filter_append, filter_optPair_self,
      filter_optPair_ne, filter_permMap_ne, optPair_none, optPair_some]
  · rintro rfl
    simp [rptFormBody_eq, List.filter_append, filter_optPair_self,
      filter_optPair_ne, filter_permMap_ne, optPair_none, optPair_some]
  · rintro rfl
    simp [rptFormBody_eq, List.filter_append, filter_optPair_ne,
      filter_permMap_ne, optPair_none, optPair_some]
  · rintro ps rfl
    simp [rptFormBody_eq, List.filter_append, filter_optPair_ne,
      filter_permMap_self, optPair_none, optPair_some]
  · rintro b rfl
    simp [rptFormBody_eq, List.filter_append, filter_optPair_self,
      filter_optPair_ne, filter_permMap_ne, optPair_none, optPair_some, boolWire]
  · rintro b rfl
    simp [rptFormBody_eq, List.filter_append, filter_optPair_self,
      filter_optPair_ne, filter_permMap_ne, optPair_none, optPair_some, boolWire]

/-- Witness for C6 at a concrete parameter set: the unset rpt parameter
contributes no pair, the two-element permission sequence contributes
exactly its two pairs in order, and a set boolean is the literal
string. -/
theorem claim_C6_witness :
    (rptFormBody (some "tick") none none none (some ["p1", "p2"])
        (some "aud") (some true) none none).filter
      (fun kv => kv.1 == "rpt") = [] ∧
    (rptFormBody (some "tick") none none none (some ["p1", "p2"])
        (some "aud") (some true) none none).filter
      (fun kv => kv.1 == "permission")
      = [("permission", "p1"), ("permission", "p2")] ∧
    (rptFormBody (some "tick") none none none (some ["p1", "p2"])
        (some "aud") (some true) none none).filter
      (fun kv => kv.1 == "response_include_resource_name")
      = [("response_include_resource_name", "true")] :=
  ⟨(claim_C6 (some "tick") none none none (some ["p1", "p2"])
      (some "aud") (some true) none none).2.2.2.1 rfl,
   (claim_C6 (some "tick") none none none (some ["p1", "p2"])
      (some "aud") (some true) none none).2.2.2.2.2.2.2.2.2.1
     ["p1", "p2"] rfl,
   (claim_C6 (some "tick") none none none (some ["p1", "p2"])
      (some "aud") (some true) none none).2.2.2.2.2.2.2.2.2.2.1
     true rfl⟩

/-- C10: whenever the RPT exchange passes its preconditions, the built
request is a POST to the token endpoint whose form body begins with the
grant_type pair and continues with the present parameters in the fixed
source order: ticket, claim_token, claim_token_format, rpt, the
repeated permission pairs, audience, response_include_resource_name,
response_permissions_limit, submit_request. -/
theorem claim_C10 (provider : Uma2Provider) (token : String)
    (auth_method : Uma2AuthenticationMethod)
    (ticket claim_token : Option String)
    (claim_token_format : Option Uma2ClaimTokenFormat)
    (rpt : Option String) (permission : Option (List String))
    (audience : Option String)
    (response_include_resource_name : Option Bool)
    (response_permissions_limit : Option Nat)
    (submit_request : Option Bool)
    (hdisc : provider.uma2_discovered = true)
    (hpre : ¬(permission = some [] ∧ audience = none)) :
    obtain_requesting_party_token_request provider token auth_method
        ticket claim_token claim_token_format rpt permission audience
        response_include_resource_name response_permissions_limit
        submit_request =
      Except.ok
        { method := "POST"
          url := provider.token_uri
          headers :=
            [("Content-Type", "application/x-www-form-urlencoded"),
             ("Authorization", rptAuthHeader auth_method token)]
          body := RequestBody.form
            ([("grant_type", "urn:ietf:params:oauth:grant-type:uma-ticket")]
              ++ optPair "ticket" ticket
              ++ optPair "claim_token" claim_token
              ++ optPair "claim_token_format"
                  (claim_token_format.map Uma2ClaimTokenFormat.toWire)
              ++ optPair "rpt" rpt
              ++ (permission.getD []).map (fun perm => ("permission", perm))
              ++ optPair "audience" audience
              ++ optPair "response_include_resource_name"
                  (response_include_resource_name.map boolWire)
              ++ optPair "response_permissions_limit"
                  (response_permissions_limit.map toString)
              ++ optPair "submit_request"
                  (submit_request.map boolWire)) } := by
  have hguard : rptAudienceGuard permission audience = false := by
    cases permission with
    | none => rfl
    | some p =>
      cases p with
      | nil =>
        cases audience with
        | none => exact absurd ⟨rfl, rfl⟩ hpre
        | some a => rfl
      | cons x xs => rfl
  simp [obtain_requesting_party_token_request, hdisc, hguard,
    rptFormBody_eq]

/-- Witness for C10 at a concrete parameter set. -/
theorem claim_C10_witness :
    obtain_requesting_party_token_request
        { uma2_discovered := true, permission_uri := none,
          uma_policy_uri := none,
          token_uri :=
            { cannotBeABase := false, pathSegments := ["token"],
              query := [] } }
        "tok" Uma2AuthenticationMethod.Bearer (some "tick") none none
        none (some ["p1", "p2"]) (some "aud") (some true) (some 5)
        none =
      Except.ok
        { method := "POST"
          url := { cannotBeABase := false, pathSegments := ["token"],
                   query := [] }
          headers :=
            [("Content-Type", "application/x-www-form-urlencoded"),
             ("Authorization", "Bearer tok")]
          body := RequestBody.form
            [("grant_type", "urn:ietf:params:oauth:grant-type:uma-ticket"),
             ("ticket", "tick"), ("permission", "p1"),
             ("permission", "p2"), ("audience", "aud"),
             ("response_include_resource_name", "true"),
             ("response_permissions_limit", "5")] } := by
  have h := claim_C10
    { uma2_discovered := true, permission_uri := none,
      uma_policy_uri := none,
      token_uri :=
        { cannotBeABase := false, pathSegments := ["token"],
          query := [] } }
    "tok" Uma2AuthenticationMethod.Bearer (some "tick") none none
    none (some ["p1", "p2"]) (some "aud") (some true) (some 5) none
    rfl (by simp)
  simpa [optPair, rptAuthHeader, boolWire] using h

/-- C7: the search request appends a query parameter only when the
corresponding caller argument is present, in the fixed order resource,
name, scope, first, max, with the caller's offset emitted under the key
"first" and the caller's count under the key "max"; in particular
offset = some 10 and count = some 5 with the rest absent append exactly
first=10 and max=5. -/
theorem claim_C7 (provider : Uma2Provider) (u : Url) (token : String)
    (resource name scope : Option String) (offset count : Option Nat)
    (hdisc : provider.uma2_discovered = true)
    (hu : provider.uma_policy_uri = some u) :
    search_for_uma2_resource_permission_request provider token resource
        name scope offset count =
      Except.ok
        { method := "GET"
          url := { cannotBeABase := u.cannotBeABase
                   pathSegments := u.pathSegments
                   query := u.query ++ optPair "resource" resource
                     ++ optPair "name" name ++ optPair "scope" scope
                     ++ optPair "first" (offset.map toString)
                     ++ optPair "max" (count.map toString) }
          headers := [("Content-Type", "application/json"),
                      ("Authorization", "Bearer " ++ token)]
          body := RequestBody.empty } ∧
    (resource = none → name = none → scope = none → offset = some 10 →
      count = some 5 →
      search_for_uma2_resource_permission_request provider token resource
          name scope offset count =
        Except.ok
          { method := "GET"
            url := { cannotBeABase := u.cannotBeABase
                     pathSegments := u.pathSegments
                     query := u.query ++ [("first", "10"), ("max", "5")] }
            headers := [("Content-Type", "application/json"),
                        ("Authorization", "Bearer " ++ token)]
            body := RequestBody.empty }) := by
  have main : search_for_uma2_resource_permission_request provider token
      resource name scope offset count =
    Except.ok
      { method := "GET"
        url := { cannotBeABase := u.cannotBeABase
                 pathSegments := u.pathSegments
                 query := u.query ++ optPair "resource" resource
                   ++ optPair "name" name ++ optPair "scope" scope
                   ++ optPair "first" (offset.map toString)
                   ++ optPair "max" (count.map toString) }
        headers := [("Content-Type", "application/json"),
                    ("Authorization", "Bearer " ++ token)]
        body := RequestBody.empty } := by
    cases resource <;> cases name <;> cases scope <;> cases offset <;>
        cases count <;>
      simp [search_for_uma2_resource_permission_request, hdisc, hu,
        Url.appendQueryPair, optPair, List.append_assoc]
  refine ⟨main, ?_⟩
  rintro rfl rfl rfl rfl rfl
  have h10 : toString (10 : Nat) = "10" := rfl
  have h5 : toString (5 : Nat) = "5" := rfl
  simpa [optPair, h10, h5] using main

/-- Witness for C7 at a concrete provider and the spec's concrete
pagination arguments. -/
theorem claim_C7_witness :
    search_for_uma2_resource_permission_request
        { uma2_discovered := true, permission_uri := none,
          uma_policy_uri :=
            some { cannotBeABase := false,
                   pathSegments := ["authz", "policy"], query := [] },
          token_uri :=
            { cannotBeABase := false, pathSegments := [], query := [] } }
        "tok" none none none (some 10) (some 5) =
      Except.ok
        { method := "GET"
          url := { cannotBeABase := false
                   pathSegments := ["authz", "policy"]
                   query := [("first", "10"), ("max", "5")] }
          headers := [("Content-Type", "application/json"),
                      ("Authorization", "Bearer tok")]
          body := RequestBody.empty } :=
  (claim_C7
    { uma2_discovered := true, permission_uri := none,
      uma_policy_uri :=
        some { cannotBeABase := false,
               pathSegments := ["authz", "policy"], query := [] },
      token_uri :=
        { cannotBeABase := false, pathSegments := [], query := [] } }
    { cannotBeABase := false, pathSegments := ["authz", "policy"],
      query := [] }
    "tok" none none none (some 10) (some 5) rfl rfl).2 rfl rfl rfl rfl
    rfl

/-- A lookup skips a prefix that misses the key. -/
theorem lookup_append_skip {β : Type} {l1 l2 : List (String × β)}
    {k : String} (h : l1.lookup k = none) :
    (l1 ++ l2).lookup k = l2.lookup k := by
  induction l1 with
  | nil => simp
  | cons kv l ih =>
    cases kv with
    | mk k2 v =>
      rw [List.cons_append]
      simp only [List.lookup] at h ⊢
      cases hk : (k == k2)
      · simp only [hk] at h ⊢
        exact ih h
      · simp [hk] at h

/-- A lookup misses an append when it misses both parts. -/
theorem lookup_append_none {β : Type} {l1 l2 : List (String × β)}
    {k : String} (h1 : l1.lookup k = none) (h2 : l2.lookup k = none) :
    (l1 ++ l2).lookup k = none :=
  (lookup_append_skip h1).trans h2

/-- An optional object field with a different key misses the lookup. -/
theorem lookup_optField_ne {k k2 : String} {v : Option Json}
    (h : (k == k2) = false) : (optField k2 v).lookup k = none := by
  cases v <;> simp [optField, List.lookup, h]

/-- C3 counterexample: the grant-to-user operation with scope_name
unset builds a JSON body that does contain a scopeName key, holding an
explicit null — its record derives Serialize without a skip attribute
on scope_name — contradicting the claim that the body has no scopeName
key and that unset optional fields are never emitted as null. -/
theorem claim_C3_counterexample :
    Except.map (fun req => req.body)
      (grant_permission_to_user_request
        { uma2_discovered := true,
          permission_uri :=
            some { cannotBeABase := false, pathSegments := ["perm"],
                   query := [] },
          uma_policy_uri := none,
          token_uri :=
            { cannotBeABase := false, pathSegments := [], query := [] } }
        "tok" "r1" "u1" none) =
      Except.ok (RequestBody.json (Json.obj
        [("resource", Json.str "r1"), ("requester", Json.str "u1"),
         ("granted", Json.bool true), ("scopeName", Json.null)])) := rfl

/-- C3 (amended): for the ticket-creation and permission-association
JSON bodies, every optional field that is unset is omitted from the
serialized object entirely; the grant-to-user body however serializes
an unset scope_name as a scopeName key holding JSON null (its record
derives Serialize without a skip attribute), so that body does contain
a scopeName key rather than omitting it. -/
theorem claim_C3 (t : Uma2PermissionTicket)
    (p : Uma2PermissionAssociation)
    (g : Uma2GrantPermissionToUserRequest) :
    (t.resource_scopes = none →
      t.toJson.lookupKey "resourceScopes" = none) ∧
    (t.claims = none → t.toJson.lookupKey "claims" = none) ∧
    (p.id = none → p.toJson.lookupKey "id" = none) ∧
    (p.roles = none → p.toJson.lookupKey "roles" = none) ∧
    (p.groups = none → p.toJson.lookupKey "groups" = none) ∧
    (p.clients = none → p.toJson.lookupKey "clients" = none) ∧
    (p.owner = none → p.toJson.lookupKey "owner" = none) ∧
    (p.permission_type = none → p.toJson.lookupKey "type" = none) ∧
    (p.logic = none → p.toJson.lookupKey "logic" = none) ∧
    (p.decision_strategy = none →
      p.toJson.lookupKey "decisionStrategy" = none) ∧
    (g.scope_name = none →
      g.toJson.lookupKey "scopeName" = some Json.null) := by
  obtain ⟨trid, trs, tcl⟩ := t
  obtain ⟨pid, pname, pdesc, pscopes, proles, pgroups, pclients, powner,
    ptype, plogic, pds⟩ := p
  obtain ⟨gres, greq, ggr, gsn⟩ := g
  refine ⟨?_, ?_, ?_, ?_, ?_, ?_, ?_, ?_, ?_, ?_, ?_⟩
  · rintro rfl
    simp only [Uma2PermissionTicket.toJson, Json.lookupKey]
    exact lookup_append_none (lookup_append_none rfl rfl)
      (lookup_optField_ne rfl)
  · rintro rfl
    simp only [Uma2PermissionTicket.toJson, Json.lookupKey]
    exact lookup_append_none
      (lookup_append_none rfl (lookup_optField_ne rfl)) rfl
  · rintro rfl
    simp only [Uma2PermissionAssociation.toJson, Json.lookupKey]
    exact lookup_append_none (lookup_append_none (lookup_append_none
      (lookup_append_none (lookup_append_none (lookup_append_none
        (lookup_append_none (lookup_append_none rfl rfl)
          (lookup_optField_ne rfl)) (lookup_optField_ne rfl))
        (lookup_optField_ne rfl)) (lookup_optField_ne rfl))
      (lookup_optField_ne rfl)) (lookup_optField_ne rfl))
      (lookup_optField_ne rfl)
  · rintro rfl
    simp only [Uma2PermissionAssociation.toJson, Json.lookupKey]
    exact lookup_append_none (lookup_append_none (lookup_append_none
      (lookup_append_none (lookup_append_none (lookup_append_none
        (lookup_append_none (lookup_append_none
          (lookup_optField_ne rfl) rfl) rfl)
        (lookup_optField_ne rfl)) (lookup_optField_ne rfl))
      (lookup_optField_ne rfl)) (lookup_optField_ne rfl))
      (lookup_optField_ne rfl)) (lookup_optField_ne rfl)
  · rintro rfl
    simp only [Uma2PermissionAssociation.toJson, Json.lookupKey]
    exact lookup_append_none (lookup_append_none (lookup_append_none
      (lookup_append_none (lookup_append_none (lookup_append_none
        (lookup_append_none (lookup_append_none
          (lookup_optField_ne rfl) rfl) (lookup_optField_ne rfl))
        rfl) (lookup_optField_ne rfl))
      (lookup_optField_ne rfl)) (lookup_optField_ne rfl))
      (lookup_optField_ne rfl)) (lookup_optField_ne rfl)
  · rintro rfl
    simp only [Uma2PermissionAssociation.toJson, Json.lookupKey]
    exact lookup_append_none (lookup_append_none (lookup_append_none
      (lookup_append_none (lookup_append_none (lookup_append_none
        (lookup_append_none (lookup_append_none
          (lookup_optField_ne rfl) rfl) (lookup_optField_ne rfl))
        (lookup_optField_ne rfl)) rfl)
      (lookup_optField_ne rfl)) (lookup_optField_ne rfl))
      (lookup_optField_ne rfl)) (lookup_optField_ne rfl)
  · rintro rfl
    simp only [Uma2PermissionAssociation.toJson, Json.lookupKey]
    exact lookup_append_none (lookup_append_none (lookup_append_none
      (lookup_append_none (lookup_append_none (lookup_append_none
        (lookup_append_none (lookup_append_none
          (lookup_optField_ne rfl) rfl) (lookup_optField_ne rfl))
        (lookup_optField_ne rfl)) (lookup_optField_ne rfl))
      rfl) (lookup_optField_ne rfl))
      (lookup_optField_ne rfl)) (lookup_optField_ne rfl)
  · rintro rfl
    simp only [Uma2PermissionAssociation.toJson, Json.lookupKey]
    exact lookup_append_none (lookup_append_none (lookup_append_none
      (lookup_append_none (lookup_append_none (lookup_append_none
        (lookup_append_none (lookup_append_none
          (lookup_optField_ne rfl) rfl) (lookup_optField_ne rfl))
        (lookup_optField_ne rfl)) (lookup_optField_ne rfl))
      (lookup_optField_ne rfl)) rfl)
      (lookup_optField_ne rfl)) (lookup_optField_ne rfl)
  · rintro rfl
    simp only [Uma2PermissionAssociation.toJson, Json.lookupKey]
    exact lookup_append_none (lookup_append_none (lookup_append_none
      (lookup_append_none (lookup_append_none (lookup_append_none
        (lookup_append_none (lookup_append_none
          (lookup_optField_ne rfl) rfl) (lookup_optField_ne rfl))
        (lookup_optField_ne rfl)) (lookup_optField_ne rfl))
      (lookup_optField_ne rfl)) (lookup_optField_ne rfl))
      rfl) (lookup_optField_ne rfl)
  · rintro rfl
    simp only [Uma2PermissionAssociation.toJson, Json.lookupKey]
    exact lookup_append_none (lookup_append_none (lookup_append_none
      (lookup_append_none (lookup_append_none (lookup_append_none
        (lookup_append_none (lookup_append_none
          (lookup_optField_ne rfl) rfl) (lookup_optField_ne rfl))
        (lookup_optField_ne rfl)) (lookup_optField_ne rfl))
      (lookup_optField_ne rfl)) (lookup_optField_ne rfl))
      (lookup_optField_ne rfl)) rfl
  · rintro rfl
    rfl

/-- Witness for C3 (amended) at concrete records with unset optional
fields: the ticket and association bodies omit them, the grant body
carries scopeName null. -/
theorem claim_C3_witness :
    Json.lookupKey (Uma2PermissionTicket.toJson
      { resource_id := "r1", resource_scopes := none, claims := none })
      "resourceScopes" = none ∧
    Json.lookupKey (Uma2PermissionAssociation.toJson
      { id := none, name := "nm", description := "d", scopes := ["s"],
        roles := none, groups := none, clients := none, owner := none,
        permission_type := none, logic := none,
        decision_strategy := none }) "id" = none ∧
    Json.lookupKey (Uma2GrantPermissionToUserRequest.toJson
      { resource := "r1", requester := "u1", granted := true,
        scope_name := none }) "scopeName" = some Json.null :=
  ⟨(claim_C3
      { resource_id := "r1", resource_scopes := none, claims := none }
      { id := none, name := "nm", description := "d", scopes := ["s"],
        roles := none, groups := none, clients := none, owner := none,
        permission_type := none, logic := none,
        decision_strategy := none }
      { resource := "r1", requester := "u1", granted := true,
        scope_name := none }).1 rfl,
   (claim_C3
      { resource_id := "r1", resource_scopes := none, claims := none }
      { id := none, name := "nm", description := "d", scopes := ["s"],
        roles := none, groups := none, clients := none, owner := none,
        permission_type := none, logic := none,
        decision_strategy := none }
      { resource := "r1", requester := "u1", granted := true,
        scope_name := none }).2.2.1 rfl,
   (claim_C3
      { resource_id := "r1", resource_scopes := none, claims := none }
      { id := none, name := "nm", description := "d", scopes := ["s"],
        roles := none, groups := none, clients := none, owner := none,
        permission_type := none, logic := none,
        decision_strategy := none }
      { resource := "r1", requester := "u1", granted := true,
        scope_name := none }).2.2.2.2.2.2.2.2.2.2 rfl⟩

end OpenidUma2
